import Mathlib

/-!
Shallow embedding of the ProgressTracker application (src/progess.py).

Modelling conventions:
  - Python floats are modelled as rationals. Wall-clock times returned by
    time.time are plain rationals passed in as a parameter named now.
  - Fallible or stateful GUI code is modelled by explicit state passing over a
    Project record (the dataclass of lines 22-33) and, for the handlers of the
    currently displayed project, over a UIState record that also carries the
    text of the two unit input fields and the rendered labels.
  - The check math.isclose(x, 0.0) uses the defaults rel_tol = 1e-9 and
    abs_tol = 0.0, and abs x <= 1e-9 * abs x holds exactly when x = 0, so the
    guard is modelled as equality with zero.
  - QMessageBox dialogs carry no state; they are modelled by outcome
    constructors naming the dialog that was shown.
-/

/-- Project record, mirroring the dataclass of lines 22-33 of progess.py.
The id is generated by uuid4 in the source; it is a plain string here. -/
structure Project where
  id : String
  name : String
  total_units : ℚ
  current_units : ℚ
  start_time : Option ℚ
  is_running : Bool
  elapsed_at_pause : ℚ
  description : String
deriving Repr, DecidableEq

/-- Text content of one of the two numeric QLineEdit fields. A value
num q formatted stands for a string parsed by float as q; the flag records
whether the string is the canonical one-decimal form written by setText in
the handlers (needed to decide whether setText changes the text and hence
re-emits textChanged). empty is a whitespace-only string and junk a
non-empty string rejected by float. -/
inductive TextVal where
  | empty
  | junk
  | num (q : ℚ) (formatted : Bool)
deriving Repr, DecidableEq

/-- The state the ETC label is put into by update_etc_for_project
(lines 669-716). remainingTime carries the remaining seconds rendered by
format_time; paused carries the elapsed seconds rendered inside the paused
text. crashed marks the one path that raises an uncaught TypeError
(is_running true with start_time None, line 684). -/
inductive EtcDisplay where
  | noEstimate
  | paused (elapsed : ℚ)
  | needPositiveTotal
  | calculating
  | complete
  | remainingTime (t : ℚ)
  | estimating
  | crashed
deriving Repr, DecidableEq

/-- Outcome of toggle_timer, naming which dialog (if any) was shown. -/
inductive ToggleOutcome where
  | started
  | stopped
  | rejectedNonPositiveTotal
  | rejectedNegativeCurrent
  | rejectedAlreadyComplete
deriving Repr, DecidableEq

/-- The method _get_safe_value (lines 583-591): parse the field text,
falling back to the supplied default when the text is empty, whitespace-only
or not a number. -/
def get_safe_value : TextVal → ℚ → ℚ
  | .num q _, _ => q
  | .empty, d => d
  | .junk, d => d

/-- The percentage computed and rendered by _update_display_from_inputs
(lines 651-657): 0 when total is not positive, otherwise
min (current / total * 100) 100, which is what the percentage label shows. -/
def progress_percentage (current total : ℚ) : ℚ :=
  if 0 < total then min (current / total * 100) 100 else 0

/-- Modelled from the spec: the clamp function named in section 4.2 of the
spec (clamp(current/total * 100, 0, 100)); used only to compare the
behaviour of progress_percentage against the words of the spec. -/
def clampQ (x lo hi : ℚ) : ℚ := max lo (min x hi)

/-- Record effect of the field writes of _update_display_from_inputs
(lines 643-649): on every live text change both unit fields are re-read
with _get_safe_value and written raw into the selected project. The label
updates and the trailing ETC call of the same method are modelled
separately (progress_percentage and the UI-level updateDisplayUI). -/
def update_inputs_live (currentText totalText : TextVal) (p : Project) : Project :=
  { p with current_units := get_safe_value currentText p.current_units,
           total_units := get_safe_value totalText p.total_units }

/-- Record effect of the stop branch of toggle_timer (lines 766-771):
accumulate the open interval into elapsed_at_pause, clear is_running and
start_time. -/
def stop_timer (now : ℚ) (p : Project) : Project :=
  { p with
    elapsed_at_pause :=
      match p.start_time with
      | some st => p.elapsed_at_pause + (now - st)
      | none => p.elapsed_at_pause,
    is_running := false,
    start_time := none }

/-- Record-level embedding of the timer state machine of toggle_timer
(lines 746-776), the part that runs after the input-finalization preamble
for the displayed project. For a project that is not the displayed one
(the automatic stop issued by the ETC poll) this is the whole method body. -/
def toggle_timer (now : ℚ) (p : Project) : ToggleOutcome × Project :=
  if p.is_running = false then
    if p.total_units ≤ 0 then (.rejectedNonPositiveTotal, p)
    else if p.current_units < 0 then (.rejectedNegativeCurrent, p)
    else if p.current_units ≥ p.total_units then (.rejectedAlreadyComplete, p)
    else (.started, { p with start_time := some now, is_running := true })
  else
    (.stopped, stop_timer now p)

/-- Record-level embedding of update_etc_for_project (lines 669-716) as it
runs for a project other than the displayed one: the computed display state
together with the project record after the call. The only mutating path is
the completion rule, which calls toggle_timer on a running project and
therefore stops it; for a non-displayed project the finalization preamble
of toggle_timer is skipped (guard on line 737). -/
def update_etc_for_project (now : ℚ) (p : Project) : EtcDisplay × Project :=
  if p.is_running = false then
    match p.start_time with
    | some _ => (.paused p.elapsed_at_pause, p)
    | none => (.noEstimate, p)
  else
    match p.start_time with
    | none => (.crashed, p)
    | some st =>
      let elapsed := p.elapsed_at_pause + (now - st)
      if p.total_units ≤ 0 then (.needPositiveTotal, p)
      else if p.current_units = 0 ∨ elapsed = 0 then (.calculating, p)
      else
        let ratio := p.current_units / p.total_units
        if ratio ≥ 1 then (.complete, stop_timer now p)
        else if ratio > 0 then
          (.remainingTime ((p.total_units - p.current_units) / (p.current_units / elapsed)), p)
        else (.estimating, p)

/-- add_new_project (lines 467-469): a fresh record with the dataclass
defaults and an auto-numbered name, count being the current project count. -/
def add_new_project (id : String) (count : Nat) : Project :=
  { id := id, name := "New Project " ++ toString (count + 1), total_units := 100,
    current_units := 0, start_time := none, is_running := false,
    elapsed_at_pause := 0, description := "" }

/-- Record effect of reset_selected_project (lines 791-797). -/
def reset_selected_project (p : Project) : Project :=
  { p with is_running := false, start_time := none, elapsed_at_pause := 0,
           current_units := 0, total_units := 100, description := "" }

/-- The invariant of section 3 of the spec: the running flag is set exactly
when the start timestamp is present. -/
def timer_invariant (p : Project) : Prop :=
  p.is_running = true ↔ p.start_time.isSome = true

instance (p : Project) : Decidable (timer_invariant p) := by
  unfold timer_invariant; infer_instance

/-- One JSON object of the persisted array, before defaulting: each field is
present or absent. A JSON null for start_time and an absent start_time both
read back as None through dict.get, so both are none here. -/
structure RawProject where
  id : Option String
  name : Option String
  total_units : Option ℚ
  current_units : Option ℚ
  start_time : Option ℚ
  is_running : Option Bool
  elapsed_at_pause : Option ℚ
  description : Option String
deriving Repr, DecidableEq

/-- The per-record part of load_projects (lines 90-99): missing fields take
the documented defaults; fresh is the uuid4 string generated for a record
without an id. -/
def project_from_raw (fresh : String) (r : RawProject) : Project :=
  { id := r.id.getD fresh,
    name := r.name.getD "Unnamed Project",
    total_units := r.total_units.getD 100,
    current_units := r.current_units.getD 0,
    start_time := r.start_time,
    is_running := r.is_running.getD false,
    elapsed_at_pause := r.elapsed_at_pause.getD 0,
    description := r.description.getD "" }

/-- The per-record part of save_projects (line 121): asdict serializes every
field of the dataclass, so every field is present in the written object. -/
def project_to_raw (p : Project) : RawProject :=
  { id := some p.id, name := some p.name, total_units := some p.total_units,
    current_units := some p.current_units, start_time := p.start_time,
    is_running := some p.is_running, elapsed_at_pause := some p.elapsed_at_pause,
    description := some p.description }

/-- The loop of load_projects (lines 87-100) over a parsed JSON array,
generating a fresh id for each position from the supplied source. -/
def load_list (fresh : Nat → String) : Nat → List RawProject → List Project
  | _, [] => []
  | i, r :: rs => project_from_raw (fresh i) r :: load_list fresh (i + 1) rs

/-- The possible outcomes of opening and parsing the data file in
load_projects (lines 77-114). The file system is external, so the outcome
of the read is an input of the model. -/
inductive LoadInput where
  | fileMissing
  | malformedJson
  | otherIoFailure
  | parsed (records : List RawProject)

/-- What load_projects reports to the user: nothing (a missing file is only
logged, lines 80-82), the decode-error warning dialog (line 108), or the
critical error dialog (line 112). -/
inductive LoadReport where
  | noReport
  | decodeErrorReported
  | otherErrorReported
deriving Repr, DecidableEq

/-- load_projects (lines 77-114): the resulting store contents and what was
reported. A missing file leaves the store empty without an error; a
JSONDecodeError or any other failure clears the store and reports. -/
def load_projects (fresh : Nat → String) : LoadInput → List Project × LoadReport
  | .fileMissing => ([], .noReport)
  | .malformedJson => ([], .decodeErrorReported)
  | .otherIoFailure => ([], .otherErrorReported)
  | .parsed rs => (load_list fresh 0 rs, .noReport)

/-- Which of the two unit input fields a handler acts on. -/
inductive InputField where
  | totalField
  | currentField
deriving Repr, DecidableEq

/-- State of the window for the currently displayed project: the project
record, the text of the two unit fields, and the two rendered labels. -/
structure UIState where
  project : Project
  currentText : TextVal
  totalText : TextVal
  etcLabel : EtcDisplay
  percentLabel : ℚ
deriving Repr, DecidableEq

/-- Round-half-even of a rational to an integer, the rounding used by the
one-decimal float formatting of the handlers; away from ties it is ordinary
rounding to nearest. Written with core rational and integer operations so
that it evaluates by kernel reduction. -/
def roundHalfEven (q : ℚ) : ℤ :=
  let f := q.num.fdiv q.den
  if q - mkRat f 1 = mkRat 1 2 then
    if f % 2 = 0 then f else f + 1
  else (q + mkRat 1 2).num.fdiv (q + mkRat 1 2).den

/-- The value denoted by the canonical one-decimal string written by the
setText calls of the handlers. -/
def format1 (q : ℚ) : ℚ := mkRat (roundHalfEven (q * 10)) 10

/-!
The four handler methods below are mutually recursive in the source:
  - _finalize_input_editing calls toggle_timer (line 622) and always ends in
    _update_display_from_inputs (line 632);
  - _update_display_from_inputs always ends in update_etc_for_project
    (line 658);
  - update_etc_for_project calls toggle_timer on completion (line 704);
  - toggle_timer begins by finalizing both input fields when the toggled
    project is the displayed one (lines 737-743) and ends in
    update_etc_for_project (lines 756, 781);
  - setText on a unit field re-enters _update_display_from_inputs through
    textChanged whenever the written string differs from the present text
    (Qt emits textChanged from setText only on an actual change).
Python bounds this recursion only by its recursion limit, so the model
carries explicit fuel; a none result models a RecursionError (or, on the
one is_running-without-start_time path, an uncaught TypeError). The value
of time.time is frozen to the parameter now for the duration of a cascade;
the dialogs opened along the way carry no state and are dropped.
-/

mutual

/-- setText on one of the unit fields (the model of the calls on lines 625,
630): writes the canonical one-decimal text and, if that changes the text,
synchronously runs the connected _update_display_from_inputs slot. -/
def setFieldTextUI (fuel : Nat) (now : ℚ) (field : InputField) (v : ℚ) (s : UIState) :
    Option UIState :=
  match fuel with
  | 0 => none
  | fuel + 1 =>
    let t := TextVal.num v true
    match field with
    | .totalField =>
      if s.totalText = t then some s
      else updateDisplayUI fuel now { s with totalText := t }
    | .currentField =>
      if s.currentText = t then some s
      else updateDisplayUI fuel now { s with currentText := t }

/-- _update_display_from_inputs (lines 635-658) for the displayed project:
re-read both fields, write them raw into the record, render the percentage
label, then recompute the ETC. -/
def updateDisplayUI (fuel : Nat) (now : ℚ) (s : UIState) : Option UIState :=
  match fuel with
  | 0 => none
  | fuel + 1 =>
    let p := s.project
    let current := get_safe_value s.currentText p.current_units
    let total := get_safe_value s.totalText p.total_units
    let p := { p with current_units := current, total_units := total }
    let pct := if 0 < total then current / total * 100 else 0
    updateEtcUI fuel now { s with project := p, percentLabel := min pct 100 }

/-- update_etc_for_project (lines 669-716) for the displayed project: same
rule order as the record-level update_etc_for_project, but the completion
rule re-enters the full toggle_timer, finalization preamble included. -/
def updateEtcUI (fuel : Nat) (now : ℚ) (s : UIState) : Option UIState :=
  match fuel with
  | 0 => none
  | fuel + 1 =>
    let p := s.project
    if p.is_running = false then
      match p.start_time with
      | some _ => some { s with etcLabel := .paused p.elapsed_at_pause }
      | none => some { s with etcLabel := .noEstimate }
    else
      match p.start_time with
      | none => none
      | some st =>
        let elapsed := p.elapsed_at_pause + (now - st)
        if p.total_units ≤ 0 then some { s with etcLabel := .needPositiveTotal }
        else if p.current_units = 0 ∨ elapsed = 0 then some { s with etcLabel := .calculating }
        else
          let ratio := p.current_units / p.total_units
          if ratio ≥ 1 then
            toggleTimerUI fuel now { s with etcLabel := .complete }
          else if ratio > 0 then
            some { s with etcLabel :=
              .remainingTime ((p.total_units - p.current_units) / (p.current_units / elapsed)) }
          else some { s with etcLabel := .estimating }

/-- toggle_timer (lines 723-781) invoked on the displayed project: finalize
both input fields (lines 739-740), re-read them (lines 742-743), then run
the timer state machine; the already-complete rejection (line 756) and both
completed transitions (line 781) re-enter update_etc_for_project. -/
def toggleTimerUI (fuel : Nat) (now : ℚ) (s : UIState) : Option UIState :=
  match fuel with
  | 0 => none
  | fuel + 1 =>
    match finalizeInputUI fuel now .totalField s with
    | none => none
    | some s =>
      match finalizeInputUI fuel now .currentField s with
      | none => none
      | some s =>
        let p := s.project
        let p := { p with total_units := get_safe_value s.totalText p.total_units }
        let p := { p with current_units := get_safe_value s.currentText p.current_units }
        let s := { s with project := p }
        if p.is_running = false then
          if p.total_units ≤ 0 then some s
          else if p.current_units < 0 then some s
          else if p.current_units ≥ p.total_units then updateEtcUI fuel now s
          else
            let s := { s with project :=
              { p with start_time := some now, is_running := true } }
            updateEtcUI fuel now s
        else
          let s := { s with project := stop_timer now p }
          updateEtcUI fuel now s

/-- _finalize_input_editing (lines 593-633) on one unit field of the
displayed project: parse, validate, cap (stopping the timer first when the
current field is capped down to total while running, lines 621-622), write
the value to the record, reformat the field text, and refresh the display. -/
def finalizeInputUI (fuel : Nat) (now : ℚ) (field : InputField) (s : UIState) :
    Option UIState :=
  match fuel with
  | 0 => none
  | fuel + 1 =>
    let p := s.project
    let text := match field with
      | .totalField => s.totalText
      | .currentField => s.currentText
    match text with
    | .num v _ =>
      match field with
      | .totalField =>
        let value :=
          if v ≤ 0 then p.total_units
          else if v < p.current_units then p.current_units
          else v
        let s := { s with project := { p with total_units := value } }
        match setFieldTextUI fuel now .totalField (format1 value) s with
        | none => none
        | some s => updateDisplayUI fuel now s
      | .currentField =>
        if v < 0 then
          let value := p.current_units
          let s := { s with project := { p with current_units := value } }
          match setFieldTextUI fuel now .currentField (format1 value) s with
          | none => none
          | some s => updateDisplayUI fuel now s
        else if v > p.total_units then
          let value := p.total_units
          match (if p.is_running then toggleTimerUI fuel now s else some s) with
          | none => none
          | some s =>
            let s := { s with project := { s.project with current_units := value } }
            match setFieldTextUI fuel now .currentField (format1 value) s with
            | none => none
            | some s => updateDisplayUI fuel now s
        else
          let s := { s with project := { p with current_units := v } }
          match setFieldTextUI fuel now .currentField (format1 v) s with
          | none => none
          | some s => updateDisplayUI fuel now s
    | .empty =>
      let cur := match field with
        | .totalField => p.total_units
        | .currentField => p.current_units
      match setFieldTextUI fuel now field (format1 cur) s with
      | none => none
      | some s => updateDisplayUI fuel now s
    | .junk =>
      let cur := match field with
        | .totalField => p.total_units
        | .currentField => p.current_units
      match setFieldTextUI fuel now field (format1 cur) s with
      | none => none
      | some s => updateDisplayUI fuel now s

end

/-!
Concrete records used by the theorems below.
-/

/-- A displayed project that has just become complete while running: both
unit values read 200, the timer is running since time 0 with no previously
accumulated time, and both field texts hold the canonical form of 200.
This is the state the window reaches the moment the current-units text of a
running project (total 100, current 50) is changed to 200: the live update
writes 200 raw into the record and the completion rule caps total up to
current through the re-entered finalization. -/
def c4_project : Project :=
  { id := "p1", name := "P", total_units := 200, current_units := 200,
    start_time := some 0, is_running := true, elapsed_at_pause := 0, description := "" }

/-- The window state holding c4_project with both field texts at the
canonical one-decimal form of 200. -/
def c4_state : UIState :=
  { project := c4_project, currentText := .num 200 true, totalText := .num 200 true,
    etcLabel := .complete, percentLabel := 100 }

lemma format1_200 : format1 200 = 200 := by
  unfold format1 roundHalfEven
  norm_num
  rfl

lemma c4_setField (m : Nat) :
    setFieldTextUI (m + 1) 50 .totalField (format1 200) c4_state = some c4_state := by
  simp [setFieldTextUI, c4_state, format1_200]

lemma c4_stepEtc (n : Nat) :
    updateEtcUI (n + 1) 50 c4_state = toggleTimerUI n 50 c4_state := by
  simp only [updateEtcUI, c4_state, c4_project]
  norm_num

lemma c4_stepDisp (n : Nat) :
    updateDisplayUI (n + 1) 50 c4_state = updateEtcUI n 50 c4_state := by
  simp only [updateDisplayUI, c4_state, c4_project, get_safe_value]
  norm_num

lemma c4_stepToggle (n : Nat)
    (h : finalizeInputUI n 50 .totalField c4_state = none) :
    toggleTimerUI (n + 1) 50 c4_state = none := by
  simp only [toggleTimerUI, h]

lemma c4_stepFin (n : Nat)
    (h : updateDisplayUI n 50 c4_state = none) :
    finalizeInputUI (n + 1) 50 .totalField c4_state = none := by
  have hs : finalizeInputUI (n + 1) 50 .totalField c4_state =
      match setFieldTextUI n 50 .totalField (format1 200) c4_state with
      | none => none
      | some s => updateDisplayUI n 50 s := by
    simp only [finalizeInputUI, c4_state, c4_project]
    norm_num
  rw [hs]
  cases n with
  | zero => rfl
  | succ m =>
    rw [c4_setField m]
    exact h

/-- Whatever the fuel, every handler of the completion cascade on the
displayed complete-while-running state returns none: the mutual recursion
toggle_timer to _finalize_input_editing to _update_display_from_inputs to
update_etc_for_project and back never leaves the cycle. -/
lemma c4_cycle (n : Nat) :
    updateEtcUI n 50 c4_state = none ∧ toggleTimerUI n 50 c4_state = none ∧
    finalizeInputUI n 50 .totalField c4_state = none ∧
    updateDisplayUI n 50 c4_state = none := by
  induction n with
  | zero => exact ⟨rfl, rfl, rfl, rfl⟩
  | succ m ih =>
    obtain ⟨hE, hT, hF, hD⟩ := ih
    refine ⟨?_, c4_stepToggle m hF, c4_stepFin m hD, ?_⟩
    · rw [c4_stepEtc]; exact hT
    · rw [c4_stepDisp]; exact hE

/-!
Claim theorems.
-/

/-- C1 counterexample: the displayed percentage is not the spec clamp into
the interval from 0 to 100. At current = -50, total = 100 (a state reachable
by loading a persisted record with a negative current_units), the label
shows -50 while the claimed clamp gives 0: the code only caps from above. -/
theorem C1_percentage_counterexample :
    progress_percentage (-50) 100 ≠ clampQ ((-50) / 100 * 100) 0 100 := by
  norm_num [progress_percentage, clampQ]

/-- C1 (amended): the displayed percentage is 0 when total is not positive
and min (current / total * 100) 100 otherwise, so it is only capped from
above; whenever current is non-negative this agrees with the claimed clamp
into the interval from 0 to 100 and lies in that interval (in particular it
does so when current is transiently larger than total), and for
0 <= current <= total it equals 100 * current / total. -/
theorem C1_percentage_amended (current total : ℚ) :
    (total ≤ 0 → progress_percentage current total = 0) ∧
    (0 < total → progress_percentage current total = min (current / total * 100) 100) ∧
    (0 < total → 0 ≤ current →
      progress_percentage current total = clampQ (current / total * 100) 0 100 ∧
      0 ≤ progress_percentage current total ∧ progress_percentage current total ≤ 100) ∧
    (0 < total → 0 ≤ current → current ≤ total →
      progress_percentage current total = 100 * current / total) := by
  refine ⟨?_, ?_, ?_, ?_⟩
  · intro h
    simp [progress_percentage, not_lt.mpr h]
  · intro h
    simp [progress_percentage, h]
  · intro ht hc
    have hx : 0 ≤ current / total * 100 := by positivity
    refine ⟨?_, ?_, ?_⟩
    · simp only [progress_percentage, if_pos ht, clampQ]
      rw [max_eq_right (le_min hx (by norm_num))]
    · simp only [progress_percentage, if_pos ht]
      exact le_min hx (by norm_num)
    · simp only [progress_percentage, if_pos ht]
      exact min_le_right _ _
  · intro ht hc hle
    have h1 : current / total ≤ 1 := (div_le_one ht).mpr hle
    simp only [progress_percentage, if_pos ht]
    rw [min_eq_left (by linarith)]
    ring

/-- C1 witness: at current = 50, total = 100 the displayed percentage equals
100 * 50 / 100 and equals the spec clamp. -/
theorem C1_percentage_witness :
    progress_percentage 50 100 = 100 * 50 / 100 ∧
    progress_percentage 50 100 = clampQ (50 / 100 * 100) 0 100 :=
  ⟨(C1_percentage_amended 50 100).2.2.2 (by norm_num) (by norm_num) (by norm_num),
   ((C1_percentage_amended 50 100).2.2.1 (by norm_num) (by norm_num)).1⟩

/-- A running project that reads complete (current = total = 100) whose
open running interval has length zero at the observation instant. -/
def c2_project : Project :=
  { id := "c2", name := "C", total_units := 100, current_units := 100,
    start_time := some 0, is_running := true, elapsed_at_pause := 0, description := "" }

/-- C2 counterexample: a running project with ratio 1 observed at elapsed
time zero displays the calculating state, not complete, and its timer is
not stopped: the insufficient-data guard precedes the completion rule. -/
theorem C2_complete_counterexample :
    c2_project.is_running = true ∧
    c2_project.current_units / c2_project.total_units ≥ 1 ∧
    update_etc_for_project 0 c2_project = (.calculating, c2_project) ∧
    (update_etc_for_project 0 c2_project).1 ≠ .complete ∧
    (update_etc_for_project 0 c2_project).2.is_running = true := by
  have h3 : update_etc_for_project 0 c2_project = (.calculating, c2_project) := by
    norm_num [update_etc_for_project, c2_project]
  refine ⟨rfl, by norm_num [c2_project], h3, ?_, ?_⟩
  · rw [h3]
    simp
  · rw [h3]
    rfl

/-- C2 (amended): when the record-level ETC computation (the form the poll
tick applies to a project other than the displayed one) runs on a running
project whose earlier guard rules do not fire (start time present, positive
total, current and elapsed nonzero) and whose ratio is at least 1, it
displays complete and its only mutation is stopping the timer (running
cleared, start cleared, the open interval accumulated), and afterwards no
further ETC recomputation mutates the record. -/
theorem C2_complete_amended (now st : ℚ) (p : Project)
    (hrun : p.is_running = true) (hst : p.start_time = some st)
    (htot : 0 < p.total_units) (hcur : p.current_units ≠ 0)
    (helap : p.elapsed_at_pause + (now - st) ≠ 0)
    (hratio : p.current_units / p.total_units ≥ 1) :
    update_etc_for_project now p = (.complete, stop_timer now p) ∧
    (stop_timer now p).is_running = false ∧
    (stop_timer now p).start_time = none ∧
    (stop_timer now p).elapsed_at_pause = p.elapsed_at_pause + (now - st) ∧
    (∀ now2, (update_etc_for_project now2 (stop_timer now p)).2 = stop_timer now p) := by
  refine ⟨?_, rfl, rfl, ?_, ?_⟩
  · simp only [update_etc_for_project, hrun, hst]
    norm_num [not_le.mpr htot, hcur, helap, hratio]
  · simp [stop_timer, hst]
  · intro now2
    simp [update_etc_for_project, stop_timer]

/-- C2 witness: the same complete-while-running record observed at time 7
(elapsed 7) displays complete and is stopped. -/
theorem C2_complete_witness :
    update_etc_for_project 7 c2_project = (.complete, stop_timer 7 c2_project) :=
  (C2_complete_amended 7 0 c2_project rfl rfl (by norm_num [c2_project])
    (by norm_num [c2_project]) (by norm_num [c2_project]) (by norm_num [c2_project])).1

/-- C3: for a stopped project the toggle starts the timer exactly when
total > 0, current >= 0 and current < total, in which case start_time is
set to now and running becomes true; when any precondition fails the
request is answered by one of the three dialogs and the record is returned
completely unchanged. -/
theorem C3_start_transition (now : ℚ) (p : Project) (h : p.is_running = false) :
    ((toggle_timer now p).1 = .started ↔
      0 < p.total_units ∧ 0 ≤ p.current_units ∧ p.current_units < p.total_units) ∧
    (0 < p.total_units → 0 ≤ p.current_units → p.current_units < p.total_units →
      toggle_timer now p =
        (.started, { p with start_time := some now, is_running := true })) ∧
    ((toggle_timer now p).1 ≠ .started →
      (toggle_timer now p).2 = p ∧
      ((toggle_timer now p).1 = .rejectedNonPositiveTotal ∨
       (toggle_timer now p).1 = .rejectedNegativeCurrent ∨
       (toggle_timer now p).1 = .rejectedAlreadyComplete)) := by
  simp only [toggle_timer, h, if_true]
  split_ifs with h1 h2 h3
  · refine ⟨?_, ?_, ?_⟩
    · simp only [reduceCtorEq, false_iff]
      rintro ⟨ht, -, -⟩
      exact absurd h1 (not_le.mpr ht)
    · intro ht _ _
      exact absurd h1 (not_le.mpr ht)
    · intro _
      exact ⟨rfl, Or.inl rfl⟩
  · refine ⟨?_, ?_, ?_⟩
    · simp only [reduceCtorEq, false_iff]
      rintro ⟨-, hc, -⟩
      exact absurd h2 (not_lt.mpr hc)
    · intro _ hc _
      exact absurd h2 (not_lt.mpr hc)
    · intro _
      exact ⟨rfl, Or.inr (Or.inl rfl)⟩
  · refine ⟨?_, ?_, ?_⟩
    · simp only [reduceCtorEq, false_iff]
      rintro ⟨-, -, hlt⟩
      exact absurd h3 (not_le.mpr hlt)
    · intro _ _ hlt
      exact absurd h3 (not_le.mpr hlt)
    · intro _
      exact ⟨rfl, Or.inr (Or.inr rfl)⟩
  · refine ⟨?_, ?_, ?_⟩
    · simp only [true_iff]
      exact ⟨not_le.mp h1, not_lt.mp h2, not_le.mp h3⟩
    · intro _ _ _
      rfl
    · intro hne
      exact absurd rfl hne

/-- C3 witness: starting the timer of a fresh stopped project (total 100,
current 0) at time 3 succeeds and stamps the start time. -/
theorem C3_start_transition_witness :
    toggle_timer 3 (add_new_project "a" 0) =
      (.started, { add_new_project "a" 0 with start_time := some 3, is_running := true }) :=
  (C3_start_transition 3 (add_new_project "a" 0) rfl).2.1
    (by norm_num [add_new_project]) (by norm_num [add_new_project])
    (by norm_num [add_new_project])

/-- C4: on the displayed project the claimed edit-stops-the-timer behaviour
is unreachable. In the complete-while-running window state c4_state the
completion rule re-enters toggle_timer, whose finalization preamble
re-enters the finalize and display handlers, which re-enter the completion
rule: for every amount of fuel the cascade returns none, the model of a
RecursionError, and the timer is never stopped. The record-level
computation on the same record (second conjunct) shows the intended
behaviour the claim and spec describe: display complete and stop the
timer. -/
theorem C4_finalize_divergence :
    (∀ fuel, updateEtcUI fuel 50 c4_state = none) ∧
    update_etc_for_project 50 c4_state.project =
      (.complete, stop_timer 50 c4_state.project) ∧
    (stop_timer 50 c4_state.project).is_running = false ∧
    (stop_timer 50 c4_state.project).elapsed_at_pause = 50 := by
  refine ⟨fun fuel => (c4_cycle fuel).1, ?_, rfl, ?_⟩
  · simp only [update_etc_for_project, c4_state, c4_project]
    norm_num
  · simp [stop_timer, c4_state, c4_project]

/-- A project running since time 0 that is about to be stopped by the user
at time 5 with a tenth of the work done. -/
def c5_running : Project :=
  { id := "c5", name := "C", total_units := 100, current_units := 10,
    start_time := some 0, is_running := true, elapsed_at_pause := 0, description := "" }

/-- C5: stopping a running project accumulates its elapsed time and clears
start_time, and precisely because start_time is cleared the subsequent ETC
computation for this previously-started paused project lands in the
no-estimate branch instead of the paused display: the paused display is
keyed on start_time being present, which never holds after a stop. -/
theorem C5_paused_display :
    (toggle_timer 5 c5_running).1 = .stopped ∧
    (toggle_timer 5 c5_running).2.elapsed_at_pause = 5 ∧
    (toggle_timer 5 c5_running).2.is_running = false ∧
    (toggle_timer 5 c5_running).2.start_time = none ∧
    update_etc_for_project 9 ((toggle_timer 5 c5_running).2) =
      (.noEstimate, (toggle_timer 5 c5_running).2) ∧
    (update_etc_for_project 9 ((toggle_timer 5 c5_running).2)).1 ≠
      .paused ((toggle_timer 5 c5_running).2.elapsed_at_pause) := by
  have ht : toggle_timer 5 c5_running = (.stopped, stop_timer 5 c5_running) := rfl
  have hs : stop_timer 5 c5_running =
      { c5_running with elapsed_at_pause := 5, is_running := false, start_time := none } := by
    simp [stop_timer, c5_running]
  rw [ht]
  refine ⟨rfl, ?_, rfl, rfl, ?_, ?_⟩
  · rw [show (ToggleOutcome.stopped, stop_timer 5 c5_running).2 = stop_timer 5 c5_running from rfl, hs]
  · rw [show (ToggleOutcome.stopped, stop_timer 5 c5_running).2 = stop_timer 5 c5_running from rfl, hs]
    simp [update_etc_for_project, c5_running]
  · rw [show (ToggleOutcome.stopped, stop_timer 5 c5_running).2 = stop_timer 5 c5_running from rfl, hs]
    simp [update_etc_for_project, c5_running]

/-- C6 counterexample: loading a JSON object carrying is_running true but no
start_time produces a record that is running without a start timestamp, so
the load operation does not preserve the running-start invariant. -/
theorem C6_invariant_counterexample :
    ¬ timer_invariant (project_from_raw "id0"
      { id := none, name := none, total_units := none, current_units := none,
        start_time := none, is_running := some true, elapsed_at_pause := none,
        description := none }) := by
  simp [timer_invariant, project_from_raw]

/-- C6 (amended): creation, the timer toggle, reset and live edits preserve
the invariant that the running flag is set exactly when the start timestamp
is present, and loading a record written by save from an invariant-holding
record preserves it too; loading arbitrary JSON does not (see the
counterexample), since is_running and start_time are copied unvalidated. -/
theorem C6_invariant_amended :
    (∀ id n, timer_invariant (add_new_project id n)) ∧
    (∀ now p, timer_invariant p → timer_invariant (toggle_timer now p).2) ∧
    (∀ p, timer_invariant (reset_selected_project p)) ∧
    (∀ ct tt p, timer_invariant p → timer_invariant (update_inputs_live ct tt p)) ∧
    (∀ fresh p, timer_invariant p →
      timer_invariant (project_from_raw fresh (project_to_raw p))) := by
  refine ⟨?_, ?_, ?_, ?_, ?_⟩
  · intro id n
    simp [timer_invariant, add_new_project]
  · intro now p hp
    by_cases h : p.is_running = false
    · simp only [toggle_timer, h, if_true]
      split_ifs <;> simp_all [timer_invariant]
    · simp only [toggle_timer, h, if_false]
      simp [timer_invariant, stop_timer]
  · intro p
    simp [timer_invariant, reset_selected_project]
  · intro ct tt p hp
    simpa [timer_invariant, update_inputs_live] using hp
  · intro fresh p hp
    simpa [timer_invariant, project_from_raw, project_to_raw] using hp

/-- C6 witness: toggling the timer of a fresh project preserves the
invariant (here: the started record has both the flag and the stamp). -/
theorem C6_invariant_witness :
    timer_invariant (toggle_timer 3 (add_new_project "a" 0)).2 :=
  C6_invariant_amended.2.1 3 (add_new_project "a" 0) (C6_invariant_amended.1 "a" 0)

/-- The JSON object holding only a name X, all other fields absent. -/
def c7_raw_only_name : RawProject :=
  { id := none, name := some "X", total_units := none, current_units := none,
    start_time := none, is_running := none, elapsed_at_pause := none,
    description := none }

/-- The project the spec scenario expects from loading c7_raw_only_name. -/
def c7_expected (fresh : String) : Project :=
  { id := fresh, name := "X", total_units := 100, current_units := 0,
    start_time := none, is_running := false, elapsed_at_pause := 0,
    description := "" }

/-- C7: loading fills every missing field with its documented default (the
first eight conjuncts), and loading the array holding the single object
with only a name X yields exactly one project named X with total 100,
current 0, not running, elapsed 0, empty description and the freshly
generated id. -/
theorem C7_load_defaults (fresh : String) (r : RawProject) :
    (project_from_raw fresh r).id = r.id.getD fresh ∧
    (project_from_raw fresh r).name = r.name.getD "Unnamed Project" ∧
    (project_from_raw fresh r).total_units = r.total_units.getD 100 ∧
    (project_from_raw fresh r).current_units = r.current_units.getD 0 ∧
    (project_from_raw fresh r).start_time = r.start_time ∧
    (project_from_raw fresh r).is_running = r.is_running.getD false ∧
    (project_from_raw fresh r).elapsed_at_pause = r.elapsed_at_pause.getD 0 ∧
    (project_from_raw fresh r).description = r.description.getD "" ∧
    load_projects (fun _ => fresh) (.parsed [c7_raw_only_name]) =
      ([c7_expected fresh], .noReport) := by
  refine ⟨rfl, rfl, rfl, rfl, rfl, rfl, rfl, rfl, ?_⟩
  simp [load_projects, load_list, project_from_raw, c7_raw_only_name, c7_expected]

/-- C8: the three failure shapes of load: malformed JSON ends with an empty
store and the decode-error dialog, any other failure ends with an empty
store and the critical dialog, and a missing file ends with an empty store
and nothing reported. -/
theorem C8_load_failures (fresh : Nat → String) :
    load_projects fresh .malformedJson = ([], .decodeErrorReported) ∧
    load_projects fresh .otherIoFailure = ([], .otherErrorReported) ∧
    load_projects fresh .fileMissing = ([], .noReport) :=
  ⟨rfl, rfl, rfl⟩

lemma project_from_to_raw (fresh : String) (p : Project) :
    project_from_raw fresh (project_to_raw p) = p := by
  cases p
  rfl

/-- C9: saving every record with all eight fields and loading the result
reproduces the same project list: same length, same field values, ids
preserved. -/
theorem C9_save_load_roundtrip (fresh : Nat → String) (ps : List Project) :
    load_projects fresh (.parsed (ps.map project_to_raw)) = (ps, .noReport) ∧
    (load_projects fresh (.parsed (ps.map project_to_raw))).1.length = ps.length ∧
    (load_projects fresh (.parsed (ps.map project_to_raw))).1.map Project.id =
      ps.map Project.id := by
  have key : ∀ (i : Nat) (qs : List Project),
      load_list fresh i (qs.map project_to_raw) = qs := by
    intro i qs
    induction qs generalizing i with
    | nil => rfl
    | cons q qs ih => simp [load_list, project_from_to_raw, ih]
  refine ⟨?_, ?_, ?_⟩ <;> simp [load_projects, key]

/-- C10: a live text change writes exactly the two parsed unit values into
the selected record (falling back to the previous value on empty or
non-numeric text) and changes no other field; the final conjunct shows a
state with current above total stored by such a live write. -/
theorem C10_live_edit_frame (p : Project) (ct tt : TextVal) :
    (update_inputs_live ct tt p).current_units = get_safe_value ct p.current_units ∧
    (update_inputs_live ct tt p).total_units = get_safe_value tt p.total_units ∧
    (update_inputs_live ct tt p).id = p.id ∧
    (update_inputs_live ct tt p).name = p.name ∧
    (update_inputs_live ct tt p).start_time = p.start_time ∧
    (update_inputs_live ct tt p).is_running = p.is_running ∧
    (update_inputs_live ct tt p).elapsed_at_pause = p.elapsed_at_pause ∧
    (update_inputs_live ct tt p).description = p.description ∧
    (∀ d, get_safe_value .empty d = d) ∧
    (∀ d, get_safe_value .junk d = d) ∧
    (∀ q f d, get_safe_value (.num q f) d = q) ∧
    (update_inputs_live (.num 200 false) (.num 100 false)
        (add_new_project "x" 0)).total_units <
      (update_inputs_live (.num 200 false) (.num 100 false)
        (add_new_project "x" 0)).current_units := by
  refine ⟨rfl, rfl, rfl, rfl, rfl, rfl, rfl, rfl,
    fun d => rfl, fun d => rfl, fun q f d => rfl, ?_⟩
  norm_num [update_inputs_live, get_safe_value, add_new_project]
